import Mathlib

/-!
Verification development for the SDSS Nigeria flood-risk engine.

The Python sources are embedded shallowly over ℚ (Python float arithmetic is
idealised as exact rational arithmetic; `round(x, 3)` is modelled by
round-half-to-even on thousandths, which is Python's rounding mode).
Dictionaries of named numeric readings become association lists; the sklearn
regressor, scaler and label-encoder objects are modelled by the parts of their
state the pipeline observes (fitted-or-not, the dataset token they were fit on,
and the sorted class list of an encoder), with the regressor's numeric output
abstracted as an arbitrary function parameter.
-/

namespace SDSS

/-- Discrete alert level, `src/lib/ml_training_pipeline.py` (`flood_level`). -/
inductive FloodLevel
  | INFO
  | WATCH
  | WARNING
  | EMERGENCY
deriving DecidableEq, Repr

/-- Numeric severity rank of a level, used to state monotonicity. -/
def FloodLevel.rank : FloodLevel → Nat
  | .INFO => 0
  | .WATCH => 1
  | .WARNING => 2
  | .EMERGENCY => 3

/-- Threshold mapping of `generate_nigeria_synthetic_dataset`,
`src/lib/ml_training_pipeline.py` lines 241-248. -/
def synthFloodLevel (r : ℚ) : FloodLevel :=
  if r > 4/5 then .EMERGENCY
  else if r > 3/5 then .WARNING
  else if r > 2/5 then .WATCH
  else .INFO

/-- Threshold mapping of the trained predict path, `predict_flood_risk`,
`src/lib/ml_training_pipeline.py` lines 482-489. -/
def predictFloodLevel (r : ℚ) : FloodLevel :=
  if r > 4/5 then .EMERGENCY
  else if r > 3/5 then .WARNING
  else if r > 2/5 then .WATCH
  else .INFO

/-- Threshold mapping of the heuristic fallback, `_simple_flood_risk`,
`src/lib/ml_training_pipeline.py` lines 540-547. -/
def simpleFloodLevel (r : ℚ) : FloodLevel :=
  if r > 4/5 then .EMERGENCY
  else if r > 3/5 then .WARNING
  else if r > 2/5 then .WATCH
  else .INFO

/-- Threshold structure of the headline selection in `_generate_recommendations`,
`src/lib/ml_training_pipeline.py` lines 563-573 (the branch that fires picks the
headline pair for this level). -/
def recHeadlineLevel (r : ℚ) : FloodLevel :=
  if r > 4/5 then .EMERGENCY
  else if r > 3/5 then .WARNING
  else if r > 2/5 then .WATCH
  else .INFO

/-- Threshold mapping of `generate_synthetic_dataset`, `src/ml_model.py`
lines 84-91. -/
def mlSynthFloodLevel (r : ℚ) : FloodLevel :=
  if r > 4/5 then .EMERGENCY
  else if r > 3/5 then .WARNING
  else if r > 2/5 then .WATCH
  else .INFO

/-- One registry entry of `self.nigeria_states`:
display name, region group, and static flood-risk class. -/
structure StateInfo where
  name : String
  region : String
  flood_risk : String
deriving DecidableEq, Repr

/-- The static Nigeria state registry, `_load_nigeria_states`,
`src/lib/ml_training_pipeline.py` lines 104-146, in insertion order. -/
def nigeriaStates : List (String × StateInfo) :=
  [("AB", ⟨"Abia", "South East", "high"⟩),
   ("AD", ⟨"Adamawa", "North East", "high"⟩),
   ("AK", ⟨"Akwa Ibom", "South South", "high"⟩),
   ("AN", ⟨"Anambra", "South East", "critical"⟩),
   ("BA", ⟨"Bauchi", "North East", "medium"⟩),
   ("BY", ⟨"Bayelsa", "South South", "critical"⟩),
   ("BE", ⟨"Benue", "North Central", "high"⟩),
   ("BO", ⟨"Borno", "North East", "low"⟩),
   ("CR", ⟨"Cross River", "South South", "high"⟩),
   ("DE", ⟨"Delta", "South South", "critical"⟩),
   ("EB", ⟨"Ebonyi", "South East", "high"⟩),
   ("ED", ⟨"Edo", "South South", "high"⟩),
   ("EK", ⟨"Ekiti", "South West", "medium"⟩),
   ("EN", ⟨"Enugu", "South East", "medium"⟩),
   ("FCT", ⟨"Abuja", "North Central", "medium"⟩),
   ("GO", ⟨"Gombe", "North East", "medium"⟩),
   ("IM", ⟨"Imo", "South East", "high"⟩),
   ("JI", ⟨"Jigawa", "North West", "low"⟩),
   ("KD", ⟨"Kaduna", "North West", "medium"⟩),
   ("KN", ⟨"Kano", "North West", "low"⟩),
   ("KT", ⟨"Katsina", "North West", "low"⟩),
   ("KE", ⟨"Kebbi", "North West", "medium"⟩),
   ("KO", ⟨"Kogi", "North Central", "high"⟩),
   ("KW", ⟨"Kwara", "North Central", "medium"⟩),
   ("LA", ⟨"Lagos", "South West", "critical"⟩),
   ("NA", ⟨"Nasarawa", "North Central", "medium"⟩),
   ("NI", ⟨"Niger", "North Central", "medium"⟩),
   ("OG", ⟨"Ogun", "South West", "high"⟩),
   ("ON", ⟨"Ondo", "South West", "medium"⟩),
   ("OS", ⟨"Osun", "South West", "medium"⟩),
   ("OY", ⟨"Oyo", "South West", "medium"⟩),
   ("PL", ⟨"Plateau", "North Central", "low"⟩),
   ("RI", ⟨"Rivers", "South South", "critical"⟩),
   ("SO", ⟨"Sokoto", "North West", "low"⟩),
   ("TA", ⟨"Taraba", "North East", "high"⟩),
   ("YO", ⟨"Yobe", "North East", "low"⟩),
   ("ZA", ⟨"Zamfara", "North West", "low"⟩)]

/-- Registry lookup (`state_code in self.nigeria_states` / indexing). -/
def lookupState (code : String) : Option StateInfo :=
  nigeriaStates.lookup code

/-- The registry key list (`list(self.nigeria_states.keys())`), insertion order. -/
def statesList : List String :=
  nigeriaStates.map Prod.fst

/-- The `state_risk_factor` table, `src/lib/ml_training_pipeline.py`
lines 219-224 and 522-527. The source indexes a dict and would raise `KeyError`
on any other key; every registry value is one of the four keys, so the final
branch is unreachable on registry data. -/
def stateRiskFactor (riskClass : String) : ℚ :=
  if riskClass = "low" then 1/10
  else if riskClass = "medium" then 3/10
  else if riskClass = "high" then 3/5
  else if riskClass = "critical" then 4/5
  else 0

/-- The `flood_risk_multiplier` table used for river level in the synthetic
generator, `src/lib/ml_training_pipeline.py` lines 195-200 (same `KeyError`
remark as `stateRiskFactor`). -/
def floodRiskMultiplier (riskClass : String) : ℚ :=
  if riskClass = "low" then 1/2
  else if riskClass = "medium" then 1
  else if riskClass = "high" then 3/2
  else if riskClass = "critical" then 2
  else 0

/-- Python banker's rounding of a rational to the nearest integer
(ties go to the even integer). -/
def roundHalfEven (x : ℚ) : ℤ :=
  if x - ⌊x⌋ < 1/2 then ⌊x⌋
  else if x - ⌊x⌋ > 1/2 then ⌊x⌋ + 1
  else if Even ⌊x⌋ then ⌊x⌋ else ⌊x⌋ + 1

/-- Python `round(x, 3)` over ℚ. -/
def round3 (x : ℚ) : ℚ :=
  (roundHalfEven (x * 1000) : ℚ) / 1000

/-- Rounding never drops below an integer lower bound. -/
theorem roundHalfEven_ge (n : ℤ) (x : ℚ) (h : (n : ℚ) ≤ x) :
    n ≤ roundHalfEven x := by
  have hf : n ≤ ⌊x⌋ := Int.le_floor.mpr h
  unfold roundHalfEven
  split_ifs <;> omega

/-- Rounding never exceeds an integer upper bound. -/
theorem roundHalfEven_le (n : ℤ) (x : ℚ) (h : x ≤ (n : ℚ)) :
    roundHalfEven x ≤ n := by
  have hfl : ⌊x⌋ ≤ n := by
    have := Int.floor_le_floor h
    simpa using this
  have hfx : (⌊x⌋ : ℚ) ≤ x := Int.floor_le x
  unfold roundHalfEven
  split_ifs with h1 h2 h3
  · exact hfl
  · rcases lt_or_eq_of_le hfl with hlt | heq
    · omega
    · exfalso
      rw [heq] at h2
      have : x - (n : ℚ) ≤ 0 := by linarith
      linarith
  · exact hfl
  · rcases lt_or_eq_of_le hfl with hlt | heq
    · omega
    · exfalso
      have h2' : x - ⌊x⌋ ≥ 1/2 := le_of_not_lt h1
      rw [heq] at h2'
      have : x - (n : ℚ) ≤ 0 := by linarith
      linarith

/-- Rounding with `round3` stays above any thousandth-grid lower bound. -/
theorem round3_ge (a x : ℚ) (z : ℤ) (hz : a = (z : ℚ) / 1000) (h : a ≤ x) :
    a ≤ round3 x := by
  subst hz
  have hz' : (z : ℚ) ≤ x * 1000 := by linarith
  have h1 := roundHalfEven_ge z (x * 1000) hz'
  unfold round3
  have h2 : (z : ℚ) ≤ (roundHalfEven (x * 1000) : ℚ) := by exact_mod_cast h1
  linarith

/-- Rounding with `round3` stays below any thousandth-grid upper bound. -/
theorem round3_le (a x : ℚ) (z : ℤ) (hz : a = (z : ℚ) / 1000) (h : x ≤ a) :
    round3 x ≤ a := by
  subst hz
  have hz' : x * 1000 ≤ (z : ℚ) := by linarith
  have h1 := roundHalfEven_le z (x * 1000) hz'
  unfold round3
  have h2 : (roundHalfEven (x * 1000) : ℚ) ≤ (z : ℚ) := by exact_mod_cast h1
  linarith

/-- The per-horizon risk loop of `calculate_nigeria_flood_risk`,
`src/main.py` lines 102-117: for the `i`-th horizon, the forecast factor is the
accumulated forecast rainfall through index `i` normalised by 50 and capped at
1; the risk is inflated by the time factor, capped at 1, and rounded to three
decimals. -/
def horizonRiskScores (base_risk : ℚ) (forecast_rainfall : List ℚ)
    (horizon_hours : List ℚ) : List ℚ :=
  horizon_hours.enum.map (fun p =>
    let forecast_factor := min 1 ((forecast_rainfall.take (p.1 + 1)).sum / 50)
    let time_factor := 1 + (p.2 / 168) * (3/10)
    round3 (min 1 ((base_risk + forecast_factor * (3/10)) * time_factor)))

/-- The per-horizon confidence loop of `calculate_nigeria_flood_risk`,
`src/main.py` lines 119-122: confidence decays with the horizon, floored at
0.3, rounded to three decimals. -/
def horizonConfidenceScores (base_confidence : ℚ)
    (horizon_hours : List ℚ) : List ℚ :=
  horizon_hours.map (fun hours =>
    round3 (max (3/10) (base_confidence * (1 - (hours / 168) * (2/5)))))

/-- C1: for every prediction call with horizon list `hs` and every index `i`,
the `i`-th output risk is `round3 (min 1 ((base_risk + 0.3 * ff_i) *
(1 + (hs[i]/168) * 0.3)))` with `ff_i = min 1 (sum of forecast rainfall through
index i / 50)`, and the `i`-th output confidence is
`round3 (max 0.3 (base_confidence * (1 - (hs[i]/168) * 0.4)))`; both output
lists have length `hs.length`, every risk lies in `[0, 1]`, and every
confidence lies in `[0.3, base_confidence]`.  The hypotheses record what the
surrounding code guarantees: forecast rainfall entries are nonnegative draws,
horizons are nonnegative hour counts, the base risk is a clamped risk value,
and the base confidence is at least 0.3 and a multiple of 0.001. -/
theorem c1_horizon_projection
    (base_risk base_confidence : ℚ) (forecast_rainfall horizon_hours : List ℚ)
    (hfr : ∀ x ∈ forecast_rainfall, 0 ≤ x)
    (hbr : 0 ≤ base_risk)
    (hh : ∀ h ∈ horizon_hours, 0 ≤ h)
    (hbc : 3/10 ≤ base_confidence)
    (hgrid : ∃ z : ℤ, base_confidence = (z : ℚ) / 1000) :
    (horizonRiskScores base_risk forecast_rainfall horizon_hours).length
        = horizon_hours.length
    ∧ (horizonConfidenceScores base_confidence horizon_hours).length
        = horizon_hours.length
    ∧ (∀ i, ∀ hi : i < horizon_hours.length,
        (horizonRiskScores base_risk forecast_rainfall horizon_hours).getD i 0
          = round3 (min 1 ((base_risk
              + (3/10) * min 1 ((forecast_rainfall.take (i + 1)).sum / 50))
              * (1 + (horizon_hours.getD i 0 / 168) * (3/10)))))
    ∧ (∀ i, ∀ hi : i < horizon_hours.length,
        (horizonConfidenceScores base_confidence horizon_hours).getD i 0
          = round3 (max (3/10)
              (base_confidence * (1 - (horizon_hours.getD i 0 / 168) * (2/5)))))
    ∧ (∀ x ∈ horizonRiskScores base_risk forecast_rainfall horizon_hours,
        0 ≤ x ∧ x ≤ 1)
    ∧ (∀ x ∈ horizonConfidenceScores base_confidence horizon_hours,
        3/10 ≤ x ∧ x ≤ base_confidence) := by
  have hlen_r : (horizonRiskScores base_risk forecast_rainfall
      horizon_hours).length = horizon_hours.length := by
    simp [horizonRiskScores]
  have hlen_c : (horizonConfidenceScores base_confidence
      horizon_hours).length = horizon_hours.length := by
    simp [horizonConfidenceScores]
  have hff_bounds : ∀ i : ℕ,
      0 ≤ min 1 ((forecast_rainfall.take (i + 1)).sum / 50) := by
    intro i
    have hsum : 0 ≤ (forecast_rainfall.take (i + 1)).sum :=
      List.sum_nonneg (fun x hx => hfr x (List.mem_of_mem_take hx))
    have : (0 : ℚ) ≤ (forecast_rainfall.take (i + 1)).sum / 50 := by positivity
    exact le_min (by norm_num) this
  refine ⟨hlen_r, hlen_c, ?_, ?_, ?_, ?_⟩
  · intro i hi
    have hi' : i < (horizonRiskScores base_risk forecast_rainfall
        horizon_hours).length := by rw [hlen_r]; exact hi
    rw [List.getD_eq_getElem _ _ hi', List.getD_eq_getElem _ _ hi]
    simp only [horizonRiskScores, List.getElem_map, List.getElem_enum]
    ring_nf
  · intro i hi
    have hi' : i < (horizonConfidenceScores base_confidence
        horizon_hours).length := by rw [hlen_c]; exact hi
    rw [List.getD_eq_getElem _ _ hi', List.getD_eq_getElem _ _ hi]
    simp only [horizonConfidenceScores, List.getElem_map]
  · simp only [horizonRiskScores, List.forall_mem_map, List.forall_mem_enum]
    intro i hi
    have hp2 : 0 ≤ horizon_hours[i] := hh _ (List.getElem_mem hi)
    have hff := hff_bounds i
    have htf : (0 : ℚ) ≤ 1 + (horizon_hours[i] / 168) * (3/10) := by positivity
    have hcore : (0 : ℚ) ≤ (base_risk
        + min 1 ((forecast_rainfall.take (i + 1)).sum / 50) * (3/10))
        * (1 + (horizon_hours[i] / 168) * (3/10)) := by
      apply mul_nonneg _ htf
      have hterm : (0 : ℚ)
          ≤ min 1 ((forecast_rainfall.take (i + 1)).sum / 50) * (3/10) := by
        apply mul_nonneg hff; norm_num
      linarith
    have hlow : (0 : ℚ) ≤ min 1 ((base_risk
        + min 1 ((forecast_rainfall.take (i + 1)).sum / 50) * (3/10))
        * (1 + (horizon_hours[i] / 168) * (3/10))) := le_min (by norm_num) hcore
    have hhigh : min 1 ((base_risk
        + min 1 ((forecast_rainfall.take (i + 1)).sum / 50) * (3/10))
        * (1 + (horizon_hours[i] / 168) * (3/10))) ≤ 1 := min_le_left _ _
    exact ⟨round3_ge 0 _ 0 (by norm_num) hlow,
           round3_le 1 _ 1000 (by norm_num) hhigh⟩
  · simp only [horizonConfidenceScores, List.forall_mem_map]
    intro hours hmem
    have hpos : 0 ≤ hours := hh _ hmem
    have hbc0 : (0 : ℚ) ≤ base_confidence := by linarith
    have hfac : base_confidence * (1 - (hours / 168) * (2/5))
        ≤ base_confidence := by
      have hnn : (0 : ℚ) ≤ (hours / 168) * (2/5) := by positivity
      have hle1 : 1 - (hours / 168) * (2/5) ≤ 1 := by linarith
      calc base_confidence * (1 - (hours / 168) * (2/5))
          ≤ base_confidence * 1 := mul_le_mul_of_nonneg_left hle1 hbc0
        _ = base_confidence := mul_one _
    have hlow : (3/10 : ℚ)
        ≤ max (3/10) (base_confidence * (1 - (hours / 168) * (2/5))) :=
      le_max_left _ _
    have hhigh : max (3/10) (base_confidence * (1 - (hours / 168) * (2/5)))
        ≤ base_confidence := max_le hbc hfac
    obtain ⟨z, hz⟩ := hgrid
    exact ⟨round3_ge (3/10) _ 300 (by norm_num) hlow,
           round3_le base_confidence _ z hz hhigh⟩

/-- Witness for C1 at a concrete call: base risk 1/2, base confidence 0.8,
forecast rainfall [10, 20], horizons [24, 48]; the hypotheses hold and the
projection lists both have length 2. -/
theorem c1_horizon_projection_witness :
    (∀ x ∈ [(10 : ℚ), 20], 0 ≤ x)
    ∧ ((0 : ℚ) ≤ 1/2)
    ∧ (∀ h ∈ [(24 : ℚ), 48], 0 ≤ h)
    ∧ ((3/10 : ℚ) ≤ 4/5)
    ∧ (∃ z : ℤ, (4/5 : ℚ) = (z : ℚ) / 1000)
    ∧ (horizonRiskScores (1/2) [10, 20] [24, 48]).length
        = ([(24 : ℚ), 48]).length :=
  ⟨by decide, by norm_num, by decide, by norm_num, ⟨800, by norm_num⟩,
    (c1_horizon_projection (1/2) (4/5) [10, 20] [24, 48]
      (by decide) (by norm_num) (by decide) (by norm_num)
      ⟨800, by norm_num⟩).1⟩

/-- C2: for every risk value `r` in `[0, 1]` the discrete level function is
monotone non-decreasing in `r` (INFO for `r ≤ 0.4`, WATCH for
`0.4 < r ≤ 0.6`, WARNING for `0.6 < r ≤ 0.8`, EMERGENCY for `r > 0.8`), and
the threshold mappings of the synthetic data generator, the trained predict
path, the heuristic fallback, the recommendation headline selection, and the
`ml_model.py` generator all assign the same level to the same `r`. -/
theorem c2_level_thresholds (r1 r2 : ℚ)
    (h1 : 0 ≤ r1) (h2 : r1 ≤ 1) (h3 : 0 ≤ r2) (h4 : r2 ≤ 1) (h12 : r1 ≤ r2) :
    (synthFloodLevel r1).rank ≤ (synthFloodLevel r2).rank
    ∧ synthFloodLevel r1 = predictFloodLevel r1
    ∧ synthFloodLevel r1 = simpleFloodLevel r1
    ∧ synthFloodLevel r1 = recHeadlineLevel r1
    ∧ synthFloodLevel r1 = mlSynthFloodLevel r1 := by
  refine ⟨?_, rfl, rfl, rfl, rfl⟩
  unfold synthFloodLevel
  split_ifs <;> simp [FloodLevel.rank] <;> linarith

/-- Witness for C2 at risks 0.5 and 0.7. -/
theorem c2_level_thresholds_witness :
    ((0 : ℚ) ≤ 1/2) ∧ ((1/2 : ℚ) ≤ 1) ∧ ((0 : ℚ) ≤ 7/10)
    ∧ ((7/10 : ℚ) ≤ 1) ∧ ((1/2 : ℚ) ≤ 7/10)
    ∧ (synthFloodLevel (1/2)).rank ≤ (synthFloodLevel (7/10)).rank :=
  ⟨by norm_num, by norm_num, by norm_num, by norm_num, by norm_num,
    (c2_level_thresholds (1/2) (7/10) (by norm_num) (by norm_num)
      (by norm_num) (by norm_num) (by norm_num)).1⟩

/-- A Python conditions dict whose values may be `None`: an association list
from reading names to `Option ℚ` (`none` is Python `None`). -/
abbrev Cond : Type := List (String × Option ℚ)

/-- A conditions dict with all values present and numeric, the shape every
call site in this repository passes to `predict_flood_risk`
(`src/main.py` lines 74-87 always fills all nine readings). -/
abbrev Obs : Type := List (String × ℚ)

/-- Python `conditions.get(key, default)` on an all-numeric dict. -/
def obsGetD (conditions : Obs) (key : String) (default : ℚ) : ℚ :=
  (List.lookup key conditions).getD default

/-- The missing-reading count of the trained confidence computation,
`sum(1 for v in conditions.values() if v is None)`,
`src/lib/ml_training_pipeline.py` line 477 (identically `src/ml_model.py`
line 206). -/
def missing_features (conditions : Cond) : ℕ :=
  (conditions.filter (fun p => p.2.isNone)).length

/-- The trained-path confidence, `src/lib/ml_training_pipeline.py`
lines 476-479 (identically `src/ml_model.py` lines 205-208): baseline 0.8,
minus 0.1 per `None` value, floored at 0.3. -/
def trainedConfidence (conditions : Cond) : ℚ :=
  max (3/10) (4/5 - (missing_features conditions : ℚ) * (1/10))

/-- Headline recommendations selected by risk level,
`src/lib/ml_training_pipeline.py` lines 563-573. -/
def headlineRecommendations (risk : ℚ) : List String :=
  if risk > 4/5 then
    ["EMERGENCY: Evacuate low-lying areas immediately",
     "Activate emergency response protocols"]
  else if risk > 3/5 then
    ["WARNING: Prepare for potential flooding",
     "Monitor river levels closely"]
  else if risk > 2/5 then
    ["WATCH: Monitor conditions closely",
     "Prepare emergency supplies"]
  else
    ["INFO: Normal conditions expected"]

/-- The state-specific recommendation segment,
`src/lib/ml_training_pipeline.py` lines 576-579. -/
def stateRiskRecommendation (state_code : Option String) : List String :=
  match state_code with
  | some c =>
    match lookupState c with
    | some info =>
      if info.flood_risk = "high" ∨ info.flood_risk = "critical" then
        ["High-risk state: " ++ info.name ++ " - Extra vigilance required"]
      else []
    | none => []
  | none => []

/-- The rainfall-triggered recommendation segment,
`src/lib/ml_training_pipeline.py` lines 582-583. -/
def rainfallRecommendation (conditions : Obs) : List String :=
  if obsGetD conditions "rainfall_24h" 0 > 30 then
    ["High rainfall detected - monitor river levels"]
  else []

/-- The river-level-triggered recommendation segment,
`src/lib/ml_training_pipeline.py` lines 585-586. -/
def riverRecommendation (conditions : Obs) : List String :=
  if obsGetD conditions "river_level" 0 > 3 then
    ["River levels elevated - check flood defenses"]
  else []

/-- The soil-moisture-triggered recommendation segment,
`src/lib/ml_training_pipeline.py` lines 588-589. -/
def soilRecommendation (conditions : Obs) : List String :=
  if obsGetD conditions "soil_moisture" 0 > 4/5 then
    ["High soil moisture - increased runoff risk"]
  else []

/-- The function `_generate_recommendations` of the Nigeria pipeline,
`src/lib/ml_training_pipeline.py` lines 559-591, with the appends in source
order: headline, then the state-risk item, then rainfall, river and soil. -/
def generateRecommendations (risk : ℚ) (conditions : Obs)
    (state_code : Option String) : List String :=
  let recommendations :=
    if risk > 4/5 then
      ["EMERGENCY: Evacuate low-lying areas immediately",
       "Activate emergency response protocols"]
    else if risk > 3/5 then
      ["WARNING: Prepare for potential flooding",
       "Monitor river levels closely"]
    else if risk > 2/5 then
      ["WATCH: Monitor conditions closely",
       "Prepare emergency supplies"]
    else
      ["INFO: Normal conditions expected"]
  let recommendations := recommendations ++
    (match state_code with
     | some c =>
       match lookupState c with
       | some info =>
         if info.flood_risk = "high" ∨ info.flood_risk = "critical" then
           ["High-risk state: " ++ info.name ++ " - Extra vigilance required"]
         else []
       | none => []
     | none => [])
  let recommendations := recommendations ++
    (if obsGetD conditions "rainfall_24h" 0 > 30 then
      ["High rainfall detected - monitor river levels"] else [])
  let recommendations := recommendations ++
    (if obsGetD conditions "river_level" 0 > 3 then
      ["River levels elevated - check flood defenses"] else [])
  recommendations ++
    (if obsGetD conditions "soil_moisture" 0 > 4/5 then
      ["High soil moisture - increased runoff risk"] else [])

/-- The function `_generate_recommendations` of `src/ml_model.py` lines 271-297: same
headline and condition segments, but no state-risk segment. -/
def mlGenerateRecommendations (risk : ℚ) (conditions : Obs) : List String :=
  let recommendations :=
    if risk > 4/5 then
      ["EMERGENCY: Evacuate low-lying areas immediately",
       "Activate emergency response protocols"]
    else if risk > 3/5 then
      ["WARNING: Prepare for potential flooding",
       "Monitor river levels closely"]
    else if risk > 2/5 then
      ["WATCH: Monitor conditions closely",
       "Prepare emergency supplies"]
    else
      ["INFO: Normal conditions expected"]
  let recommendations := recommendations ++
    (if obsGetD conditions "rainfall_24h" 0 > 30 then
      ["High rainfall detected - monitor river levels"] else [])
  let recommendations := recommendations ++
    (if obsGetD conditions "river_level" 0 > 3 then
      ["River levels elevated - check flood defenses"] else [])
  recommendations ++
    (if obsGetD conditions "soil_moisture" 0 > 4/5 then
      ["High soil moisture - increased runoff risk"] else [])

/-- Modelled from the spec: the recommendation list order asserted by the
specification (section 4.6) — headline first, then conditional items in the
fixed check order rainfall-24h, river level, soil moisture, and region
base-risk-class high/critical last. -/
def specOrderRecommendations (risk : ℚ) (conditions : Obs)
    (state_code : Option String) : List String :=
  headlineRecommendations risk
    ++ rainfallRecommendation conditions
    ++ riverRecommendation conditions
    ++ soilRecommendation conditions
    ++ stateRiskRecommendation state_code

/-- Result record of `_simple_flood_risk`,
`src/lib/ml_training_pipeline.py` lines 549-557 (`factors` echoes the raw
conditions dict). -/
structure SimpleResult where
  flood_risk : ℚ
  confidence : ℚ
  level : FloodLevel
  state_code : Option String
  region : String
  recommendations : List String
  factors : List (String × ℚ)
deriving DecidableEq, Repr

/-- The heuristic fallback `_simple_flood_risk`,
`src/lib/ml_training_pipeline.py` lines 511-557: a fixed-weight sum of
normalised rainfall, river excess, soil moisture, temperature excess and the
state risk factor, clamped to `[0, 1]`, with fixed confidence 0.6. -/
def simpleFloodRisk (conditions : Obs) (state_code : Option String) :
    SimpleResult :=
  let rainfall_24h := obsGetD conditions "rainfall_24h" 0
  let river_level := obsGetD conditions "river_level" 2
  let soil_moisture := obsGetD conditions "soil_moisture" (1/2)
  let temperature := obsGetD conditions "temperature" 25
  let state_risk_factor :=
    match state_code with
    | some c =>
      match lookupState c with
      | some info => stateRiskFactor info.flood_risk
      | none => 3/10
    | none => 3/10
  let risk :=
    (3/10) * min 1 (rainfall_24h / 50)
      + (1/4) * min 1 (max 0 (river_level - 2) / 3)
      + (3/20) * soil_moisture
      + (1/10) * max 0 ((temperature - 25) / 10)
      + (1/5) * state_risk_factor
  let risk := max 0 (min 1 risk)
  { flood_risk := risk
    confidence := 3/5
    level := simpleFloodLevel risk
    state_code := state_code
    region :=
      match state_code with
      | some c =>
        match lookupState c with
        | some info => info.region
        | none => "Unknown"
      | none => "Unknown"
    recommendations := generateRecommendations risk conditions state_code
    factors := conditions }

/-- The observable state of an sklearn scaler: fresh (`StandardScaler()`) or
fit on some dataset, identified by a token. -/
inductive ScalerState
  | unfitted
  | fitted (tok : ℕ)
deriving DecidableEq, Repr

/-- The observable state of an sklearn regressor held by the pipeline: its
configured model family and, when `fit` has completed, the dataset token it
was fit on (`none` for a freshly constructed, unfitted regressor). -/
structure ModelArtifact where
  modelType : String
  fittedOn : Option ℕ
deriving DecidableEq, Repr

/-- The mutable state of `NigeriaMLTrainingPipeline` that the training,
loading and prediction paths read and write: `self.model`, `self.scaler`,
`self.label_encoder` (its sorted class list once fit) and `self.is_trained`
(`src/lib/ml_training_pipeline.py` lines 63-87). -/
structure PipelineState where
  model : Option ModelArtifact
  scaler : ScalerState
  labelEncoder : Option (List String)
  is_trained : Bool
deriving DecidableEq, Repr

/-- The state right after `__init__` before `load_models`:
no model, fresh scaler, fresh encoder, untrained. -/
def initialPipelineState : PipelineState :=
  { model := none
    scaler := ScalerState.unfitted
    labelEncoder := none
    is_trained := false }

/-- Lexicographic comparison of character lists by code point, the order
`sorted`/`np.unique` uses on the ASCII state and region names. -/
def charListLe : List Char → List Char → Bool
  | [], _ => true
  | _ :: _, [] => false
  | c :: cs, d :: ds =>
    if c.toNat < d.toNat then true
    else if d.toNat < c.toNat then false
    else charListLe cs ds

/-- String comparison used to model `np.unique` sorting. -/
def strLe (a b : String) : Bool :=
  charListLe a.data b.data

/-- Insertion into a sorted string list. -/
def insSorted (x : String) : List String → List String
  | [] => [x]
  | y :: ys => if strLe x y then x :: y :: ys else y :: insSorted x ys

/-- Insertion sort of strings. -/
def sortStrings (xs : List String) : List String :=
  xs.foldr insSorted []

/-- The class list a fitted `sklearn.LabelEncoder` exposes: the sorted
distinct values it was fit on (`np.unique`). -/
def labelEncoderClasses (values : List String) : List String :=
  sortStrings values.dedup

/-- The region encoder classes built fresh on every trained predict call,
`src/lib/ml_training_pipeline.py` lines 444-448: a `LabelEncoder` fit on the
region of every registry state. -/
def regionClasses : List String :=
  labelEncoderClasses (nigeriaStates.map (fun p => p.2.region))

/-- State resolution at the top of the trained predict path,
`src/lib/ml_training_pipeline.py` lines 430-436: a registry code keeps its
region; anything else (including `None`) is replaced by the default state
`FCT` in region `North Central`. -/
def resolveState (state_code : Option String) : String × String :=
  match state_code with
  | some c =>
    match lookupState c with
    | some info => (c, info.region)
    | none => ("FCT", "North Central")
  | none => ("FCT", "North Central")

/-- The state encoding with its `try/except ValueError` guard,
`src/lib/ml_training_pipeline.py` lines 439-442: `label_encoder.transform`
returns the index of the code in the sorted class list and raises for an
unseen code (also when the encoder was never fit — sklearn's
`NotFittedError` subclasses `ValueError`); the handler substitutes the
default encoding 0. -/
def encodeStateCode (labelEncoder : Option (List String))
    (code : String) : ℕ :=
  match labelEncoder with
  | none => 0
  | some classes => if code ∈ classes then classes.indexOf code else 0

/-- The 14-entry feature row of the trained predict path,
`src/lib/ml_training_pipeline.py` lines 451-466, with the documented
per-reading defaults; `yday` and `month` stand for `datetime.now()`. -/
def predictFeatures (conditions : Obs) (yday month : ℚ)
    (state_encoded region_encoded : ℕ) : List ℚ :=
  [obsGetD conditions "temperature" 25,
   obsGetD conditions "humidity" 65,
   obsGetD conditions "pressure" 1013,
   obsGetD conditions "wind_speed" 3,
   obsGetD conditions "wind_direction" 180,
   obsGetD conditions "precipitation" 0,
   obsGetD conditions "rainfall_24h" 0,
   obsGetD conditions "rainfall_7d" 0,
   obsGetD conditions "soil_moisture" (1/2),
   obsGetD conditions "river_level" 2,
   yday, month, (state_encoded : ℚ), (region_encoded : ℚ)]

/-- The echoed factor block of a trained prediction,
`src/lib/ml_training_pipeline.py` lines 501-508. -/
structure PredictFactors where
  rainfall_24h : ℚ
  river_level : ℚ
  soil_moisture : ℚ
  temperature : ℚ
  humidity : ℚ
  state_risk : String
deriving DecidableEq, Repr

/-- Result record of a trained prediction,
`src/lib/ml_training_pipeline.py` lines 494-509. -/
structure TrainedResult where
  flood_risk : ℚ
  confidence : ℚ
  level : FloodLevel
  state_code : String
  region : String
  recommendations : List String
  factors : PredictFactors
deriving DecidableEq, Repr

/-- Python exceptions the trained predict path can raise:
`scaler.transform` on a never-fitted scaler (sklearn `NotFittedError`) and
`self.model.predict` when `self.model` is still `None` (`AttributeError`).
Neither is caught inside `predict_flood_risk`. -/
inductive PredictError
  | scalerNotFitted
  | attributeError
deriving DecidableEq, Repr

/-- A completed prediction: either the trained-model result or the heuristic
fallback result. -/
inductive PredictOutcome
  | trained (r : TrainedResult)
  | fallback (r : SimpleResult)
deriving DecidableEq, Repr

/-- The function `predict_flood_risk`, `src/lib/ml_training_pipeline.py` lines 425-509.
`score m tok features` abstracts `self.model.predict(self.scaler.transform
(features))[0]` for model `m` and a scaler fit on dataset `tok`; `yday` and
`month` stand for `datetime.now()`.  The untrained branch delegates to the
heuristic; the trained branch resolves the state, encodes it, builds the
feature row, and raises if the scaler was never fit or the model is absent
(the order of the two checks follows lines 469 and 472 of the source). -/
def predictFloodRisk (score : ModelArtifact → ℕ → List ℚ → ℚ)
    (yday month : ℚ) (st : PipelineState) (conditions : Obs)
    (state_code : Option String) : Except PredictError PredictOutcome :=
  if st.is_trained = false then
    Except.ok (PredictOutcome.fallback (simpleFloodRisk conditions state_code))
  else
    let resolved := resolveState state_code
    let code := resolved.1
    let region := resolved.2
    let state_encoded := encodeStateCode st.labelEncoder code
    let region_encoded := regionClasses.indexOf region
    let features := predictFeatures conditions yday month
        state_encoded region_encoded
    match st.scaler with
    | ScalerState.unfitted => Except.error PredictError.scalerNotFitted
    | ScalerState.fitted tok =>
      match st.model with
      | none => Except.error PredictError.attributeError
      | some m =>
        let flood_risk := max 0 (min 1 (score m tok features))
        let confidence :=
          trainedConfidence (conditions.map (fun p => (p.1, some p.2)))
        Except.ok (PredictOutcome.trained
          { flood_risk := flood_risk
            confidence := confidence
            level := predictFloodLevel flood_risk
            state_code := code
            region := region
            recommendations :=
              generateRecommendations flood_risk conditions (some code)
            factors :=
              { rainfall_24h := obsGetD conditions "rainfall_24h" 0
                river_level := obsGetD conditions "river_level" 2
                soil_moisture := obsGetD conditions "soil_moisture" (1/2)
                temperature := obsGetD conditions "temperature" 25
                humidity := obsGetD conditions "humidity" 65
                state_risk :=
                  match lookupState code with
                  | some info => info.flood_risk
                  | none => "medium" } })

/-- The persisted metadata artifact `nigeria_metadata.json`; only the
`is_trained` flag is read back by `load_models` (line 632), so only it is
modelled. -/
structure Metadata where
  is_trained : Bool
deriving DecidableEq, Repr

/-- The on-disk artifact set `load_models` probes: each slot is present
(`some`) or absent (`none`).  Artifacts are modelled as well-formed values,
so the `except` branch of `load_models` (which only fires when reading a
corrupt file raises) is not exercised. -/
structure ArtifactStore where
  modelFile : Option ModelArtifact
  scalerFile : Option ℕ
  encoderFile : Option (List String)
  metadataFile : Option Metadata
deriving DecidableEq, Repr

/-- The function `load_models`, `src/lib/ml_training_pipeline.py` lines 614-637: each
artifact that exists on disk is loaded independently, and `is_trained` is set
from the metadata file alone — no cross-check that the model, scaler or
encoder files exist. -/
def loadModels (store : ArtifactStore) (st : PipelineState) : PipelineState :=
  let st := match store.modelFile with
    | some m => { st with model := some m }
    | none => st
  let st := match store.scalerFile with
    | some tok => { st with scaler := ScalerState.fitted tok }
    | none => st
  let st := match store.encoderFile with
    | some classes => { st with labelEncoder := some classes }
    | none => st
  match store.metadataFile with
  | some md => { st with is_trained := md.is_trained }
  | none => st

/-- The stages of `train_model` at which an exception can be raised, in
source order: feature preparation (lines 321-338 via 355), the data split
(line 358), scaling (line 363), the regressor `fit` call (line 385), and
evaluation/cross-validation (lines 388-397). -/
inductive TrainStage
  | prepare
  | split
  | scale
  | fitCall
  | evaluate
deriving DecidableEq, Repr

/-- The function `train_model`, `src/lib/ml_training_pipeline.py` lines 340-423, as a
state transformer with an injected failure stage (`failAt`); an exception
propagates uncaught, leaving whatever mutations already happened in place,
which the error branch records.  Mutation order follows the source:
`prepare_features` refits `self.label_encoder` (line 324) before a prepare
failure can be raised at the feature-column selection (line 335);
`self.scaler` is refit on success of line 363 (sklearn validates its input
before mutating the scaler); `self.model` is overwritten with a fresh
unfitted regressor (lines 369-383) before `fit` runs (line 385); and
`self.is_trained` is set only after evaluation (line 405).
`classes` is the sorted distinct state-code list of the dataset `dataTok`. -/
def trainModel (st : PipelineState) (modelType : String) (dataTok : ℕ)
    (classes : List String) (failAt : Option TrainStage) :
    Except PipelineState PipelineState :=
  let st := { st with labelEncoder := some classes }
  if failAt = some TrainStage.prepare then Except.error st
  else if failAt = some TrainStage.split then Except.error st
  else if failAt = some TrainStage.scale then Except.error st
  else
    let st := { st with scaler := ScalerState.fitted dataTok }
    let st := { st with model := some { modelType := modelType,
                                        fittedOn := none } }
    if failAt = some TrainStage.fitCall then Except.error st
    else
      let st := { st with model := some { modelType := modelType,
                                          fittedOn := some dataTok } }
      if failAt = some TrainStage.evaluate then Except.error st
      else Except.ok { st with is_trained := true }

/-- A draw from `np.random.normal(mu, sigma)` with raw stream value `u`
(the standard-normal variate is abstracted as `u`). -/
def normalDraw (mu sigma u : ℚ) : ℚ :=
  mu + sigma * u

/-- A draw from `np.random.exponential(scale)` with raw stream value `u`
(the unit-exponential variate is abstracted as `u`). -/
def exponentialDraw (scale u : ℚ) : ℚ :=
  scale * u

/-- A draw from `np.random.uniform(a, b)` with raw stream value `u`. -/
def uniformDraw (a b u : ℚ) : ℚ :=
  a + (b - a) * u

/-- A draw from `np.random.randint(a, b)` (half-open) with raw stream value
`u`. -/
def randintDraw (a b : ℕ) (u : ℚ) : ℕ :=
  a + ⌊u⌋.toNat % (b - a)

/-- A draw from `np.random.choice(xs)` with raw stream value `u`. -/
def choiceDraw (xs : List String) (u : ℚ) : String :=
  xs.getD (⌊u⌋.toNat % xs.length) "FCT"

/-- All columns of one synthetic row except the wall-clock-dependent
`timestamp`, `generate_nigeria_synthetic_dataset`,
`src/lib/ml_training_pipeline.py` lines 250-270. -/
structure SynthRowCore where
  latitude : ℚ
  longitude : ℚ
  state_code : String
  region : String
  temperature : ℚ
  humidity : ℚ
  pressure : ℚ
  wind_speed : ℚ
  wind_direction : ℚ
  precipitation : ℚ
  rainfall_24h : ℚ
  rainfall_7d : ℚ
  soil_moisture : ℚ
  river_level : ℚ
  day_of_year : ℕ
  month : ℕ
  flood_risk : ℚ
  flood_level : FloodLevel
deriving DecidableEq, Repr

/-- One full synthetic row: the seed-determined columns plus the `timestamp`
column, which is `datetime.now() - timedelta(days=randint(0, 365))`
(line 251) and therefore depends on the wall clock at generation time. -/
structure SynthRow where
  core : SynthRowCore
  timestamp : ℚ
deriving DecidableEq, Repr

/-- The seed-determined columns of the row whose draws start at stream
position `k`, `src/lib/ml_training_pipeline.py` lines 155-270.  The global
numpy RNG reseeded with 42 (line 150) is modelled as the fixed stream
`stream`; each `np.random` call consumes one stream value, in source order:
state choice (`k`), temperature (`k+1`), humidity (`k+2`), base rainfall
(`k+3`), pressure (`k+4`), day-of-year (`k+5`), 24-hour rainfall (`k+6`),
river-level noise (`k+7`), wind speed (`k+8`), wind direction (`k+9`), risk
noise (`k+10`), timestamp day offset (`k+11`), latitude (`k+12`), longitude
(`k+13`) — 14 draws per row on every branch.  `sinF d` abstracts
`np.sin(2 * np.pi * (d - 90) / 180)` applied to the day-of-year `d`.
The `pressure_factor` of line 218 is computed but not used in the weighted
sum of lines 228-235, and is omitted here. -/
def synthRowCore (sinF : ℚ → ℚ) (stream : ℕ → ℚ) (k : ℕ) : SynthRowCore :=
  let state_code := choiceDraw statesList (stream k)
  let info := (lookupState state_code).getD ⟨"Abuja", "North Central", "medium"⟩
  let temperature :=
    if info.region = "South South" ∨ info.region = "South East" then
      normalDraw 28 3 (stream (k + 1))
    else if info.region = "North East" ∨ info.region = "North West" then
      normalDraw 32 4 (stream (k + 1))
    else normalDraw 26 4 (stream (k + 1))
  let humidity :=
    if info.region = "South South" ∨ info.region = "South East" then
      normalDraw 80 10 (stream (k + 2))
    else if info.region = "North East" ∨ info.region = "North West" then
      normalDraw 45 15 (stream (k + 2))
    else normalDraw 65 15 (stream (k + 2))
  let base_rainfall :=
    if info.region = "South South" ∨ info.region = "South East" then
      exponentialDraw 3 (stream (k + 3))
    else if info.region = "North East" ∨ info.region = "North West" then
      exponentialDraw 1 (stream (k + 3))
    else exponentialDraw 2 (stream (k + 3))
  let pressure := normalDraw 1013 20 (stream (k + 4))
  let day_of_year := randintDraw 1 365 (stream (k + 5))
  let month := day_of_year / 30 + 1
  let seasonal_factor : ℚ :=
    if 4 ≤ month ∧ month ≤ 10 then
      1 + (1/2) * sinF (day_of_year : ℚ)
    else 3/10
  let rainfall_7d := base_rainfall * seasonal_factor
  let rainfall_24h := exponentialDraw 1 (stream (k + 6)) * seasonal_factor
  let river_level := 2 + rainfall_7d * (1/10)
      * floodRiskMultiplier info.flood_risk
      + normalDraw 0 (3/10) (stream (k + 7))
  let soil_moisture := min 1 (max 0
      (3/10 + rainfall_7d * (1/20) - (temperature - 25) * (1/100)))
  let wind_speed := exponentialDraw 3 (stream (k + 8))
  let wind_direction := uniformDraw 0 360 (stream (k + 9))
  let flood_risk_base :=
    (3/10) * min 1 (rainfall_24h / 50)
      + (1/4) * min 1 (max 0 (river_level - 2) / 3)
      + (3/20) * soil_moisture
      + (1/10) * max 0 ((temperature - 30) / 10)
      + (1/20) * (humidity / 100)
      + (3/20) * stateRiskFactor info.flood_risk
  let flood_risk := min 1 (max 0
      (flood_risk_base + normalDraw 0 (1/10) (stream (k + 10))))
  { latitude := uniformDraw 4 14 (stream (k + 12))
    longitude := uniformDraw 3 15 (stream (k + 13))
    state_code := state_code
    region := info.region
    temperature := temperature
    humidity := humidity
    pressure := pressure
    wind_speed := wind_speed
    wind_direction := wind_direction
    precipitation := rainfall_24h
    rainfall_24h := rainfall_24h
    rainfall_7d := rainfall_7d
    soil_moisture := soil_moisture
    river_level := river_level
    day_of_year := day_of_year
    month := month
    flood_risk := flood_risk
    flood_level := synthFloodLevel flood_risk }

/-- One synthetic row: seed-determined columns plus the timestamp drawn from
the wall clock `now` minus a random day offset (line 251). -/
def synthRow (sinF : ℚ → ℚ) (stream : ℕ → ℚ) (now : ℚ) (k : ℕ) : SynthRow :=
  { core := synthRowCore sinF stream k
    timestamp := now - (randintDraw 0 365 (stream (k + 11)) : ℚ) }

/-- The generator `generate_nigeria_synthetic_dataset`,
`src/lib/ml_training_pipeline.py` lines 148-272: `n_samples` rows, each
consuming 14 draws of the reseeded global stream, evaluated at wall-clock
time `now`. -/
def generateNigeriaSyntheticDataset (sinF : ℚ → ℚ) (stream : ℕ → ℚ)
    (now : ℚ) (n_samples : ℕ) : List SynthRow :=
  (List.range n_samples).map (fun i => synthRow sinF stream now (14 * i))

/-- A fully trained pipeline state prior to a retraining attempt. -/
def priorTrainedState : PipelineState :=
  { model := some { modelType := "gradient_boosting", fittedOn := some 1 }
    scaler := ScalerState.fitted 1
    labelEncoder := some ["AB", "FCT"]
    is_trained := true }

/-- C3 counterexample: starting from a fully trained state, a `fit` exception
(injected at the regressor `fit` call, training on dataset 2) leaves the
pipeline with a fresh unfitted regressor, a scaler refit on the new data and
a refit label encoder — not the previously trained state the claim asserts is
preserved. -/
theorem c3_counterexample :
    trainModel priorTrainedState "gradient_boosting" 2 ["AB"]
        (some TrainStage.fitCall)
      = Except.error
          { model := some { modelType := "gradient_boosting", fittedOn := none }
            scaler := ScalerState.fitted 2
            labelEncoder := some ["AB"]
            is_trained := true }
    ∧ ({ model := some { modelType := "gradient_boosting", fittedOn := none }
         scaler := ScalerState.fitted 2
         labelEncoder := some ["AB"]
         is_trained := true } : PipelineState) ≠ priorTrainedState := by
  exact ⟨rfl, by decide⟩

/-- C3 amended: if the fit raises at any stage, the exception is surfaced to
the caller (the result is an error) and the `is_trained` flag is left
unchanged; however the model, scaler and label-encoder state may already have
been overwritten by the failed attempt, as the counterexample shows. -/
theorem c3_amended (st : PipelineState) (modelType : String) (dataTok : ℕ)
    (classes : List String) (stage : TrainStage) :
    ∃ st', trainModel st modelType dataTok classes (some stage)
        = Except.error st'
      ∧ st'.is_trained = st.is_trained := by
  cases stage <;> exact ⟨_, rfl, rfl⟩

/-- C4 counterexample: two runs of the synthetic generator with the same
(seed-determined) stream and the same `n = 1`, executed at different
wall-clock times, produce different output — the `timestamp` column differs. -/
theorem c4_counterexample :
    generateNigeriaSyntheticDataset (fun _ => 0) (fun _ => 0) 0 1
      ≠ generateNigeriaSyntheticDataset (fun _ => 0) (fun _ => 0) 1 1 := by
  have e1 : ∀ now : ℚ, (generateNigeriaSyntheticDataset (fun _ => 0)
      (fun _ => 0) now 1).map SynthRow.timestamp = [now] := by
    intro now
    simp [generateNigeriaSyntheticDataset, synthRow, randintDraw,
      List.range_succ, List.range_zero]
  intro h
  have hts : (generateNigeriaSyntheticDataset (fun _ => 0) (fun _ => 0)
        0 1).map SynthRow.timestamp
      = (generateNigeriaSyntheticDataset (fun _ => 0) (fun _ => 0)
        1 1).map SynthRow.timestamp := by rw [h]
  rw [e1 0, e1 1] at hts
  simp at hts

/-- C4 amended: with the same stream (the generator always reseeds the global
RNG with 42, so two runs share it) and the same `n`, every column except
`timestamp` is identical row for row; the full outputs are identical exactly
when the wall-clock instants agree. -/
theorem c4_amended (sinF : ℚ → ℚ) (stream : ℕ → ℚ) (t1 t2 : ℚ) (n : ℕ) :
    (generateNigeriaSyntheticDataset sinF stream t1 n).map SynthRow.core
      = (generateNigeriaSyntheticDataset sinF stream t2 n).map SynthRow.core
    ∧ (t1 = t2 →
        generateNigeriaSyntheticDataset sinF stream t1 n
          = generateNigeriaSyntheticDataset sinF stream t2 n) := by
  constructor
  · simp only [generateNigeriaSyntheticDataset, List.map_map]
    rfl
  · intro h
    rw [h]

/-- C5: the trained-path confidence is `max 0.3 (0.8 - 0.1 * missing)` where
`missing` counts the `None` values of the conditions dict; zero missing
readings give exactly 0.8 and three give exactly 0.5; the untrained fallback
always returns confidence 0.6. -/
theorem c5_confidence :
    (∀ conditions : Cond, trainedConfidence conditions
        = max (3/10) (4/5 - (missing_features conditions : ℚ) * (1/10)))
    ∧ (∀ conditions : Cond, missing_features conditions = 0 →
        trainedConfidence conditions = 4/5)
    ∧ (∀ conditions : Cond, missing_features conditions = 3 →
        trainedConfidence conditions = 1/2)
    ∧ (∀ (conditions : Obs) (state_code : Option String),
        (simpleFloodRisk conditions state_code).confidence = 3/5) := by
  refine ⟨fun c => rfl, ?_, ?_, fun c sc => rfl⟩
  · intro c h
    unfold trainedConfidence
    rw [h]
    norm_num [max_def]
  · intro c h
    unfold trainedConfidence
    rw [h]
    norm_num [max_def]

/-- Witness for C5 at a dict with exactly three `None` readings. -/
theorem c5_confidence_witness :
    missing_features
        [("rainfall_24h", none), ("river_level", none), ("soil_moisture", none)]
      = 3
    ∧ trainedConfidence
        [("rainfall_24h", none), ("river_level", none), ("soil_moisture", none)]
      = 1/2 :=
  ⟨by decide, c5_confidence.2.2.1 _ (by decide)⟩

/-- The artifact store of the C6 failing input: metadata recorded as trained,
every other artifact absent. -/
def metadataOnlyStore : ArtifactStore :=
  { modelFile := none
    scalerFile := none
    encoderFile := none
    metadataFile := some { is_trained := true } }

/-- C6: evaluating the code at the failing input.  With only the metadata
artifact present (recording `is_trained = true`) and the model, scaler and
encoder artifacts absent, `load_models` reports the pipeline as trained, and
every subsequent predict call raises (the never-fitted scaler's `transform`
fails) instead of returning a result — contradicting the claim that a
partial artifact set is treated as UNTRAINED and predict does not crash. -/
theorem c6_load_partial_artifacts (score : ModelArtifact → ℕ → List ℚ → ℚ)
    (yday month : ℚ) (conditions : Obs) (state_code : Option String) :
    (loadModels metadataOnlyStore initialPipelineState).is_trained = true
    ∧ predictFloodRisk score yday month
        (loadModels metadataOnlyStore initialPipelineState) conditions state_code
      = Except.error PredictError.scalerNotFitted := by
  exact ⟨rfl, rfl⟩

/-- C7 counterexample: with an encoder fit on classes `["AB", "FCT"]`, a
predict call for the code `"XX"` — unseen at fit time and not in the registry
— is first rerouted to the default state `FCT`, whose encoding is 1, not the
reserved default code 0 that the claim asserts. -/
theorem c7_counterexample :
    lookupState "XX" = none
    ∧ "XX" ∉ ["AB", "FCT"]
    ∧ encodeStateCode (some ["AB", "FCT"]) (resolveState (some "XX")).1 = 1 := by
  refine ⟨by decide, by decide, by decide⟩

/-- C7 amended: on the trained path every predict call returns a complete
result (never raises); a registry-known state code unseen when the encoder
was fit maps to the reserved default code 0; a code outside the registry is
first replaced by the default state `FCT` and encoded as `FCT` is. -/
theorem c7_amended (score : ModelArtifact → ℕ → List ℚ → ℚ)
    (yday month : ℚ) (st : PipelineState) (tok : ℕ) (m : ModelArtifact)
    (conditions : Obs) (state_code : Option String)
    (ht : st.is_trained = true) (hsc : st.scaler = ScalerState.fitted tok)
    (hm : st.model = some m) :
    (∃ r, predictFloodRisk score yday month st conditions state_code
        = Except.ok (PredictOutcome.trained r))
    ∧ (∀ (classes : List String) (code : String) (info : StateInfo),
        st.labelEncoder = some classes → lookupState code = some info →
        code ∉ classes →
        encodeStateCode st.labelEncoder (resolveState (some code)).1 = 0)
    ∧ (∀ code : String, lookupState code = none →
        encodeStateCode st.labelEncoder (resolveState (some code)).1
          = encodeStateCode st.labelEncoder "FCT") := by
  refine ⟨?_, ?_, ?_⟩
  · simp only [predictFloodRisk, ht, hsc, hm]
    simp only [Bool.true_eq_false, if_false]
    exact ⟨_, rfl⟩
  · intro classes code info hle hreg hnot
    rw [hle]
    simp only [resolveState, encodeStateCode, hreg]
    simp [hnot]
  · intro code hreg
    simp only [resolveState, hreg]

/-- The trained pipeline state of the C7 witness. -/
def predictWitnessState : PipelineState :=
  { model := some { modelType := "gradient_boosting", fittedOn := some 1 }
    scaler := ScalerState.fitted 1
    labelEncoder := some ["AB"]
    is_trained := true }

/-- Witness for C7 at a concrete trained state and call. -/
theorem c7_amended_witness :
    predictWitnessState.is_trained = true
    ∧ predictWitnessState.scaler = ScalerState.fitted 1
    ∧ predictWitnessState.model
        = some { modelType := "gradient_boosting", fittedOn := some 1 }
    ∧ (∃ r, predictFloodRisk (fun _ _ _ => 1/2) 200 7 predictWitnessState
        [("rainfall_24h", 10)] (some "BA")
        = Except.ok (PredictOutcome.trained r)) :=
  ⟨rfl, rfl, rfl,
    (c7_amended (fun _ _ _ => 1/2) 200 7 predictWitnessState 1
      { modelType := "gradient_boosting", fittedOn := some 1 }
      [("rainfall_24h", 10)] (some "BA") rfl rfl rfl).1⟩

/-- C8 counterexample: at risk 0.5, conditions with 24-hour rainfall 60 and
the high-risk state `AB`, the generated list places the state-risk item
before the rainfall item, while the claim's fixed order (rainfall, river,
soil, then state class) puts it last. -/
theorem c8_counterexample :
    generateRecommendations (1/2) [("rainfall_24h", 60)] (some "AB")
      ≠ specOrderRecommendations (1/2) [("rainfall_24h", 60)] (some "AB") := by
  have hAB : lookupState "AB" = some ⟨"Abia", "South East", "high"⟩ := rfl
  have hrain : obsGetD [("rainfall_24h", (60 : ℚ))] "rainfall_24h" 0 = 60 := rfl
  have hriver : obsGetD [("rainfall_24h", (60 : ℚ))] "river_level" 0 = 0 := rfl
  have hsoil : obsGetD [("rainfall_24h", (60 : ℚ))] "soil_moisture" 0 = 0 := rfl
  have e1 : generateRecommendations (1/2) [("rainfall_24h", 60)] (some "AB")
      = ["WATCH: Monitor conditions closely", "Prepare emergency supplies",
         "High-risk state: " ++ "Abia" ++ " - Extra vigilance required",
         "High rainfall detected - monitor river levels"] := by
    simp only [generateRecommendations, hAB, hrain, hriver, hsoil]
    norm_num
  have e2 : specOrderRecommendations (1/2) [("rainfall_24h", 60)] (some "AB")
      = ["WATCH: Monitor conditions closely", "Prepare emergency supplies",
         "High rainfall detected - monitor river levels",
         "High-risk state: " ++ "Abia" ++ " - Extra vigilance required"] := by
    simp only [specOrderRecommendations, headlineRecommendations,
      stateRiskRecommendation, rainfallRecommendation, riverRecommendation,
      soilRecommendation, hAB, hrain, hriver, hsoil]
    norm_num
  rw [e1, e2]
  decide

/-- C8 amended: the pipeline recommendation list is the headline item(s)
followed by the conditional items in the source's check order — region
base-risk-class high/critical first, then rainfall-24h, river level, soil
moisture; the `ml_model.py` variant emits no region item and appends
rainfall, river, soil after the headline. -/
theorem c8_amended (risk : ℚ) (conditions : Obs) (state_code : Option String) :
    generateRecommendations risk conditions state_code
      = headlineRecommendations risk
        ++ stateRiskRecommendation state_code
        ++ rainfallRecommendation conditions
        ++ riverRecommendation conditions
        ++ soilRecommendation conditions
    ∧ mlGenerateRecommendations risk conditions
      = headlineRecommendations risk
        ++ rainfallRecommendation conditions
        ++ riverRecommendation conditions
        ++ soilRecommendation conditions := by
  constructor <;>
    simp [generateRecommendations, mlGenerateRecommendations,
      headlineRecommendations, stateRiskRecommendation,
      rainfallRecommendation, riverRecommendation, soilRecommendation,
      List.append_assoc]

/-- The first scenario observation of C9. -/
def scenario1Obs : Obs :=
  [("rainfall_24h", 5), ("river_level", 2), ("soil_moisture", 2/5),
   ("temperature", 25), ("humidity", 60)]

/-- The second scenario observation of C9: heavier rainfall, higher river,
wetter soil. -/
def scenario2Obs : Obs :=
  [("rainfall_24h", 60), ("river_level", 9/2), ("soil_moisture", 9/10),
   ("temperature", 25), ("humidity", 60)]

/-- C9: under the untrained heuristic in the medium-base-risk state `BA`,
the mild observation yields a strictly smaller risk than the severe one, the
mild case's level is INFO or WATCH, and the severe case's level is WARNING
or EMERGENCY. -/
theorem c9_heuristic_scenario :
    (lookupState "BA").map StateInfo.flood_risk = some "medium"
    ∧ (simpleFloodRisk scenario1Obs (some "BA")).flood_risk
        < (simpleFloodRisk scenario2Obs (some "BA")).flood_risk
    ∧ ((simpleFloodRisk scenario1Obs (some "BA")).level = FloodLevel.INFO
        ∨ (simpleFloodRisk scenario1Obs (some "BA")).level = FloodLevel.WATCH)
    ∧ ((simpleFloodRisk scenario2Obs (some "BA")).level = FloodLevel.WARNING
        ∨ (simpleFloodRisk scenario2Obs (some "BA")).level
            = FloodLevel.EMERGENCY) := by
  have hBA : lookupState "BA" = some ⟨"Bauchi", "North East", "medium"⟩ := rfl
  have hsrf : stateRiskFactor "medium" = 3/10 := rfl
  have g11 : obsGetD scenario1Obs "rainfall_24h" 0 = 5 := rfl
  have g12 : obsGetD scenario1Obs "river_level" 2 = 2 := rfl
  have g13 : obsGetD scenario1Obs "soil_moisture" (1/2) = 2/5 := rfl
  have g14 : obsGetD scenario1Obs "temperature" 25 = 25 := rfl
  have g21 : obsGetD scenario2Obs "rainfall_24h" 0 = 60 := rfl
  have g22 : obsGetD scenario2Obs "river_level" 2 = 9/2 := rfl
  have g23 : obsGetD scenario2Obs "soil_moisture" (1/2) = 9/10 := rfl
  have g24 : obsGetD scenario2Obs "temperature" 25 = 25 := rfl
  have r1 : (simpleFloodRisk scenario1Obs (some "BA")).flood_risk = 3/20 := by
    simp only [simpleFloodRisk, hBA, g11, g12, g13, g14, hsrf]
    norm_num [min_def, max_def]
  have r2 : (simpleFloodRisk scenario2Obs (some "BA")).flood_risk
      = 211/300 := by
    simp only [simpleFloodRisk, hBA, g21, g22, g23, g24, hsrf]
    norm_num [min_def, max_def]
  have l1 : (simpleFloodRisk scenario1Obs (some "BA")).level
      = FloodLevel.INFO := by
    simp only [simpleFloodRisk, hBA, g11, g12, g13, g14, hsrf,
      simpleFloodLevel]
    norm_num [min_def, max_def]
  have l2 : (simpleFloodRisk scenario2Obs (some "BA")).level
      = FloodLevel.WARNING := by
    simp only [simpleFloodRisk, hBA, g21, g22, g23, g24, hsrf,
      simpleFloodLevel]
    norm_num [min_def, max_def]
  refine ⟨rfl, ?_, ?_, ?_⟩
  · rw [r1, r2]
    norm_num
  · rw [l1]
    exact Or.inl rfl
  · rw [l2]
    exact Or.inl rfl

/-- C10: only keys that are present with value `None` are counted as missing;
keys entirely absent from the dict are not penalised, so an empty conditions
dict yields confidence exactly 0.8, the same as any fully populated
observation. -/
theorem c10_absent_keys_not_penalized :
    trainedConfidence [] = 4/5
    ∧ (∀ conditions : Cond, (∀ p ∈ conditions, p.2.isSome) →
        trainedConfidence conditions = 4/5) := by
  constructor
  · norm_num [trainedConfidence, missing_features, max_def]
  · intro c h
    have hz : missing_features c = 0 := by
      unfold missing_features
      rw [List.length_eq_zero]
      rw [List.filter_eq_nil_iff]
      intro p hp
      obtain ⟨v, hv⟩ := Option.isSome_iff_exists.mp (h p hp)
      simp [hv]
    unfold trainedConfidence
    rw [hz]
    norm_num [max_def]

/-- Witness for C10 at a one-entry fully populated dict. -/
theorem c10_absent_keys_not_penalized_witness :
    (∀ p ∈ ([("temperature", some (25 : ℚ))] : Cond), p.2.isSome)
    ∧ trainedConfidence [("temperature", some 25)] = 4/5 :=
  ⟨by decide, c10_absent_keys_not_penalized.2 _ (by decide)⟩

end SDSS
